import Mathlib

/-!
Verification development for the DagBot frontend (src/Code/Frontend and the
unnamed hook/component files).  Each definition is a shallow embedding of one
function of the TypeScript source; theorems check the specification's claims
against those definitions.

String operations from JavaScript (startsWith, slice, split, endsWith,
includes, toLowerCase, trim) are embedded as character-list operations, which
coincide with the JS semantics on the ASCII data these functions handle.
-/

namespace DagBot

/-- JS String.prototype.startsWith. -/
def strStartsWith (s pat : String) : Bool :=
  pat.toList.isPrefixOf s.toList

/-- JS String.prototype.slice(n) (drop the first n characters). -/
def strDrop (s : String) (n : Nat) : String :=
  String.mk (s.toList.drop n)

/-- JS String.prototype.endsWith. -/
def strEndsWith (s pat : String) : Bool :=
  pat.toList.isSuffixOf s.toList

/-- Infix test on character lists, used for JS String.prototype.includes. -/
def infixOfList (pat : List Char) : List Char → Bool
  | [] => pat.isEmpty
  | c :: rest => pat.isPrefixOf (c :: rest) || infixOfList pat rest

/-- JS String.prototype.includes. -/
def strIncludes (s pat : String) : Bool :=
  infixOfList pat.toList s.toList

/-- JS String.prototype.toLowerCase (ASCII). -/
def strToLower (s : String) : String :=
  String.mk (s.toList.map Char.toLower)

/-- JS String.prototype.trim. -/
def strTrim (s : String) : String :=
  String.mk (((s.toList.dropWhile Char.isWhitespace).reverse.dropWhile
    Char.isWhitespace).reverse)

/-- JS String.prototype.split("\n"), on character lists: the result is never
empty, and holds the fragments between newline characters in order. -/
def splitNlChars : List Char → List (List Char)
  | [] => [[]]
  | c :: rest =>
    if c = '\n' then [] :: splitNlChars rest
    else
      match splitNlChars rest with
      | [] => [[c]]
      | h :: t => (c :: h) :: t

/-- JS buffer.split("\n") as used in streamChat (api.ts line 151). -/
def splitNl (s : String) : List String :=
  (splitNlChars s.toList).map String.mk

/-- The fields of a parsed SSE JSON value that streamChat reads
(api.ts lines 157-162).  A field absent from the JSON object (or a parse
result that is not an object) is `none`, standing for JS `undefined`. -/
structure JsonVal where
  type : Option String
  content : Option String
  id : Option String
  conversation_id : Option String
  message : Option String
  error : Option String
deriving DecidableEq

/-- One sink invocation of streamChat: which caller callback fires and with
which (possibly `undefined`) argument. -/
inductive StreamEvent where
  | token (content : Option String)
  | convId (id : Option String)
  | done (conversation_id : Option String)
  | err (message : Option String)
deriving DecidableEq

/-- The per-line dispatch of streamChat (api.ts lines 154-165): skip lines not
prefixed with "data: ", JSON.parse the rest (the platform parser is the
parameter `parse`; `none` models a parse exception, caught and skipped), then
the if/else chain over data.type, with the data.error truthiness fallback.
Each line invokes at most one callback; `none` means no callback fires. -/
def dispatchLine (parse : String → Option JsonVal) (line : String) :
    Option StreamEvent :=
  if strStartsWith line "data: " then
    match parse (strDrop line 6) with
    | none => none
    | some j =>
      if j.type = some "token" then some (.token j.content)
      else if j.type = some "conversation_id" then some (.convId j.id)
      else if j.type = some "done" then some (.done j.conversation_id)
      else if j.type = some "error" then some (.err j.message)
      else
        match j.error with
        | some e => if e = "" then none else some (.err (some e))
        | none => none
  else none

/-- The complete lines extracted by streamChat's read loop (api.ts lines
146-153): each chunk is appended to the carry buffer, the result is split on
newlines, the last fragment becomes the new carry buffer, the rest are the
lines processed.  The final carry buffer is discarded when the reader reports
done. -/
def completeLines : List String → String → List String
  | [], _ => []
  | c :: cs, buf =>
    let pieces := splitNl (buf ++ c)
    pieces.dropLast ++ completeLines cs ((pieces.getLast?).getD "")

/-- The full read loop of streamChat: the sink invocations produced by a
chunked response body, in order (api.ts lines 146-167). -/
def processChunks (parse : String → Option JsonVal) :
    List String → String → List StreamEvent
  | [], _ => []
  | c :: cs, buf =>
    let pieces := splitNl (buf ++ c)
    pieces.dropLast.filterMap (dispatchLine parse) ++
      processChunks parse cs ((pieces.getLast?).getD "")

/-- All sink invocations of one streamChat call (initial buffer empty,
api.ts line 144). -/
def streamChatEvents (parse : String → Option JsonVal)
    (chunks : List String) : List StreamEvent :=
  processChunks parse chunks ""

/-- A terminal sink invocation: onDone or onError. -/
def isTerminal : StreamEvent → Bool
  | .done _ => true
  | .err _ => true
  | _ => false

/-- A token sink invocation: onToken. -/
def isTokenEv : StreamEvent → Bool
  | .token _ => true
  | _ => false

/-- No onToken invocation occurs after any terminal invocation in the
delivered sequence. -/
def noTokenAfterTerminal : List StreamEvent → Bool
  | [] => true
  | e :: es =>
    (if isTerminal e then es.all (fun x => !isTokenEv x) else true) &&
      noTokenAfterTerminal es

/-- A concrete stand-in for the platform JSON parser, used only on concrete
inputs: it recognizes a few literal payloads (the parser is otherwise a free
parameter of every theorem). -/
def parse0 (s : String) : Option JsonVal :=
  if s = "DONE" then
    some { type := some "done", content := none, id := none,
           conversation_id := some "c1", message := none, error := none }
  else if s = "TOK" then
    some { type := some "token", content := some "X", id := none,
           conversation_id := none, message := none, error := none }
  else if s = "He" then
    some { type := some "token", content := some "He", id := none,
           conversation_id := none, message := none, error := none }
  else if s = "llo" then
    some { type := some "token", content := some "llo", id := none,
           conversation_id := none, message := none, error := none }
  else
    none

/-- One typed content part (types/index.ts line 6): text or image_url. -/
inductive ContentPart where
  | text (t : String)
  | image_url (url : String)
deriving DecidableEq

/-- ChatMessage.content: a plain string or a list of typed parts. -/
inductive MessageContent where
  | str (s : String)
  | parts (ps : List ContentPart)
deriving DecidableEq

/-- ChatMessage.role (types/index.ts line 5). -/
inductive Role where
  | system
  | user
  | assistant
deriving DecidableEq

/-- The fields of ChatMessage the chat hook reads and writes. -/
structure ChatMessage where
  role : Role
  content : MessageContent
deriving DecidableEq

/-- Provider (types/index.ts lines 26-38).  `models` is optional there;
`description` and `recommended` are optional display fields left out because
no modelled function reads them. -/
structure Provider where
  name : String
  display_name : String
  base_url : String
  api_key : String
  default_model : String
  access_method : String
  icon : String
  is_custom : Bool
  models : Option (List String)
deriving DecidableEq

/-- ConversationDetail (types/index.ts lines 12-24). -/
structure ConversationDetail where
  id : String
  title : String
  system_prompt : Option String
  created_at : String
  updated_at : String
  preview : Option String
  message_count : Nat
  messages : List ChatMessage
deriving DecidableEq

/-- ProviderTestResult (types/index.ts lines 83-87). -/
structure ProviderTestResult where
  success : Bool
  message : String
  response_time_ms : Option Nat
deriving DecidableEq

/-- JS string coercion applied when an `undefined` value is concatenated to a
string, as happens in useChat's onToken if a token event carries no content. -/
def jsString : Option String → String
  | some s => s
  | none => "undefined"

/-- The `typeof last.content === "string" ? last.content : ""` fallback of
useChat's onToken (part_003 line 95). -/
def contentStr : MessageContent → String
  | .str s => s
  | .parts _ => ""

/-- The onToken update of useChat (part_003 lines 90-99): copy the list and,
when the last message exists and is the assistant message, append the token to
its string content (non-string content falls back to ""). -/
def appendTok (msgs : List ChatMessage) (tok : String) : List ChatMessage :=
  match msgs.getLast? with
  | some last =>
    if last.role = .assistant then
      msgs.dropLast ++ [{ last with content := .str (contentStr last.content ++ tok) }]
    else msgs
  | none => msgs

/-- The state of the useChat hook that the streaming callbacks touch
(part_003 lines 18-22): messages, the streaming flag, the error, the
conversation-id ref and the abort ref. -/
structure HookState where
  messages : List ChatMessage
  isStreaming : Bool
  error : Option String
  convId : Option String
  abort : Bool
deriving DecidableEq

/-- One streamChat sink invocation applied to the hook state (part_003 lines
88-110): onToken appends unless the abort ref is set; onConversationId stores
the id; onDone clears the streaming flag; onError stores the message and
clears the streaming flag. -/
def stepEvent (s : HookState) : StreamEvent → HookState
  | .token c =>
    if s.abort then s
    else { s with messages := appendTok s.messages (jsString c) }
  | .convId i => { s with convId := i }
  | .done _ => { s with isStreaming := false }
  | .err m => { s with error := m, isStreaming := false }

/-- The hook state right after sendMessage has pushed the user message and the
empty assistant message and entered streaming (part_003 lines 35-74). -/
def initialHookState (history : List ChatMessage) (userContent : MessageContent)
    (conversationId : Option String) : HookState :=
  { messages := history ++
      [{ role := .user, content := userContent },
       { role := .assistant, content := .str "" }],
    isStreaming := true, error := none, convId := conversationId,
    abort := false }

/-- An item on the wire as seen by the combined useChat + streamChat system:
either a chunk read from the response body, or the user invoking
stopStreaming (part_003 lines 24-26) between two reads. -/
inductive WireItem where
  | chunk (s : String)
  | cancel
deriving DecidableEq

/-- The combined run: streamChat's read loop keeps consuming chunks (it has no
access to the abort ref), dispatching each complete line to the hook
callbacks; a cancel item sets the abort ref. -/
def runWire (parse : String → Option JsonVal) :
    List WireItem → String → HookState → HookState
  | [], _, s => s
  | .cancel :: rest, buf, s => runWire parse rest buf { s with abort := true }
  | .chunk c :: rest, buf, s =>
    let pieces := splitNl (buf ++ c)
    runWire parse rest ((pieces.getLast?).getD "")
      ((pieces.dropLast.filterMap (dispatchLine parse)).foldl stepEvent s)

/-- The sink invocations streamChat performs along a wire trace: cancellation
does not interrupt the read loop, so chunks after a cancel are still read and
dispatched. -/
def sinkCalls (parse : String → Option JsonVal) :
    List WireItem → String → List StreamEvent
  | [], _ => []
  | .cancel :: rest, buf => sinkCalls parse rest buf
  | .chunk c :: rest, buf =>
    let pieces := splitNl (buf ++ c)
    pieces.dropLast.filterMap (dispatchLine parse) ++
      sinkCalls parse rest ((pieces.getLast?).getD "")

/-- The sink invocations that occur strictly after the first cancel of the
trace. -/
def sinkCallsAfterCancel (parse : String → Option JsonVal) :
    List WireItem → String → List StreamEvent
  | [], _ => []
  | .cancel :: rest, buf => sinkCalls parse rest buf
  | .chunk c :: rest, buf =>
    sinkCallsAfterCancel parse rest
      (((splitNl (buf ++ c)).getLast?).getD "")

/-- The carry buffer of streamChat's read loop after a wire trace. -/
def bufAfter : List WireItem → String → String
  | [], buf => buf
  | .cancel :: rest, buf => bufAfter rest buf
  | .chunk c :: rest, buf =>
    bufAfter rest (((splitNl (buf ++ c)).getLast?).getD "")

/-- A full uncancelled chat run: streamChat's events folded over the hook
state. -/
def runChat (parse : String → Option JsonVal) (chunks : List String)
    (s : HookState) : HookState :=
  runWire parse (chunks.map WireItem.chunk) "" s

/-- The contents of the onToken invocations of a delivered event sequence, in
order (after JS string coercion). -/
def tokenTexts (evs : List StreamEvent) : List String :=
  evs.filterMap (fun e => match e with
    | .token c => some (jsString c)
    | _ => none)

/-- Right-fold concatenation of a list of strings. -/
def textConcat (l : List String) : String :=
  l.foldr (· ++ ·) ""

/-- First-occurrence deduplication, carrying the elements already seen. -/
def dedupFirstAux (seen : List String) : List String → List String
  | [] => []
  | x :: xs =>
    if seen.contains x then dedupFirstAux seen xs
    else x :: dedupFirstAux (x :: seen) xs

/-- JS Array.from(new Set(list)): first occurrences, insertion order
(api.ts line 364). -/
def dedupFirst (l : List String) : List String :=
  dedupFirstAux [] l

/-- The free-tier test of the SettingsPanel model filter (api.ts lines
381-384): lowercase identifier includes "free" or ends with ":free". -/
def isFreeModel (m : String) : Bool :=
  strIncludes (strToLower m) "free" || strEndsWith (strToLower m) ":free"

/-- What the model-selection area of the SettingsPanel shows: either the
free-text input prefilled with a model name (empty combined catalog) or the
list of candidate model buttons. -/
inductive ModelArea where
  | freeInput (value : String)
  | list (models : List String)
deriving DecidableEq

/-- The model-selection area computation of the SettingsPanel (api.ts lines
359-408): combine and deduplicate the static and dynamically fetched
catalogs; an empty combined catalog yields the free-text input prefilled with
the current model (if this provider is selected) or its default; otherwise
apply the free-only filter and then the search filter and show the result. -/
def modelArea (baseModels dynModels : List String) (freeOnly : Bool)
    (search : String) (isSelected : Bool) (settingsModel defaultModel : String) :
    ModelArea :=
  let combined := dedupFirst (baseModels ++ dynModels)
  if combined.isEmpty then
    .freeInput (if isSelected then settingsModel else defaultModel)
  else
    let f1 := if freeOnly then combined.filter isFreeModel else combined
    let f2 :=
      if search ≠ "" then
        f1.filter (fun m => strIncludes (strToLower m) (strToLower search))
      else f1
    .list f2

/-- The model names shown as candidates for selection. -/
def candidatesOf : ModelArea → List String
  | .freeInput v => [v]
  | .list ms => ms

/-- One per-provider option record of ChatSettings.provider_options
(types/index.ts lines 77-80); a missing key is JS `undefined`. -/
structure ProviderOptionEntry where
  free_only : Option Bool
  auto_choose : Option Bool
deriving DecidableEq

/-- The empty JS object `{}`. -/
def emptyEntry : ProviderOptionEntry :=
  { free_only := none, auto_choose := none }

/-- Which option key is being read or written. -/
inductive OptionKey where
  | free_only
  | auto_choose
deriving DecidableEq

/-- Read one field of an option record. -/
def entryGet (e : ProviderOptionEntry) : OptionKey → Option Bool
  | .free_only => e.free_only
  | .auto_choose => e.auto_choose

/-- Write one field of an option record (JS spread with one key replaced). -/
def entrySet (e : ProviderOptionEntry) : OptionKey → Bool → ProviderOptionEntry
  | .free_only, v => { e with free_only := some v }
  | .auto_choose, v => { e with auto_choose := some v }

/-- Record<string, ProviderOptionEntry> as an association list keyed by
provider name. -/
abbrev ProviderOptionsMap := List (String × ProviderOptionEntry)

/-- JS object key lookup. -/
def lookupOpts (m : ProviderOptionsMap) (name : String) :
    Option ProviderOptionEntry :=
  (m.find? (fun kv => kv.1 = name)).map (fun kv => kv.2)

/-- JS object key assignment: replace in place, or append a new key. -/
def setAssoc : ProviderOptionsMap → String → ProviderOptionEntry →
    ProviderOptionsMap
  | [], n, e => [(n, e)]
  | (k, v) :: rest, n, e =>
    if k = n then (n, e) :: rest else (k, v) :: setAssoc rest n e

/-- The fields of ChatSettings the SettingsPanel model-resolution code reads
and writes (the numeric generation parameters pass through untouched and are
omitted). -/
structure ChatSettingsState where
  provider : String
  model : String
  provider_options : Option ProviderOptionsMap
deriving DecidableEq

/-- getOption of the SettingsPanel (api.ts lines 229-231):
`settings.provider_options?.[name]?.[key] ?? false`. -/
def getOption (s : ChatSettingsState) (name : String) (k : OptionKey) : Bool :=
  match s.provider_options with
  | none => false
  | some m =>
    match lookupOpts m name with
    | none => false
    | some e => (entryGet e k).getD false

/-- updateOption of the SettingsPanel (api.ts lines 233-237). -/
def updateOption (s : ChatSettingsState) (name : String) (k : OptionKey)
    (v : Bool) : ChatSettingsState :=
  let m := s.provider_options.getD []
  let e := (lookupOpts m name).getD emptyEntry
  { s with provider_options := some (setAssoc m name (entrySet e k v)) }

/-- The SelectionCard onClick settings effect (api.ts lines 267-273): when the
clicked provider is not the selected one, select it and resolve the model to
"openrouter/auto" when its auto_choose option is set, else to its default
model.  (The expanded/collapsed toggle is panel-local UI state.) -/
def selectionCardClick (s : ChatSettingsState) (p : Provider) :
    ChatSettingsState :=
  if s.provider ≠ p.name then
    { s with provider := p.name,
             model := if getOption s p.name .auto_choose then "openrouter/auto"
                      else p.default_model }
  else s

/-- The auto-choose checkbox onChange effect (api.ts lines 328-334): persist
the flag; when the provider is the selected one, also set the model to
"openrouter/auto" or back to the provider default. -/
def autoChooseToggle (s : ChatSettingsState) (p : Provider) (checked : Bool) :
    ChatSettingsState :=
  let s1 := updateOption s p.name .auto_choose checked
  if s.provider = p.name then
    { s1 with model := if checked then "openrouter/auto" else p.default_model }
  else s1

/-- An attachment as the chat hook sees it: name, MIME type, the data URL a
FileReader would produce for it, and its text content. -/
structure FileAtt where
  name : String
  mime : String
  dataUrl : String
  text : String
deriving DecidableEq

/-- The text-like test of useChat.sendMessage (part_003 line 60). -/
def isTextLike (f : FileAtt) : Bool :=
  strStartsWith f.mime "text/" || strEndsWith f.name ".ts" ||
    strEndsWith f.name ".tsx" || strEndsWith f.name ".js" ||
    strEndsWith f.name ".json" || strEndsWith f.name ".md"

/-- The parts one attachment contributes (part_003 lines 47-64): an image
becomes an image_url part with its data URL; a text-like file becomes a text
part with its name and contents; anything else contributes nothing. -/
def attachmentPart (f : FileAtt) : List ContentPart :=
  if strStartsWith f.mime "image/" then [.image_url f.dataUrl]
  else if isTextLike f then [.text ("File: " ++ f.name ++ "\n\n" ++ f.text)]
  else []

/-- The message content built by useChat.sendMessage (part_003 lines 39-66):
plain text when there are no attachments, otherwise a part list opened by a
text part for non-blank typed input followed by the attachments' parts in
order. -/
def sendMessageContent (content : String) (attachments : List FileAtt) :
    MessageContent :=
  if attachments.isEmpty then .str content
  else .parts
    ((if strTrim content ≠ "" then [ContentPart.text content] else []) ++
      attachments.flatMap attachmentPart)

/-- The local active-conversation update of useConversations.renameConversation
(useConversations.ts lines 54-56): when the active conversation's id matches,
replace only its title; otherwise leave the state alone. -/
def renameActiveConversation (active : Option ConversationDetail)
    (id title : String) : Option ConversationDetail :=
  match active with
  | none => none
  | some c => if c.id = id then some { c with title := title } else some c

/-- Modelled from the spec: the backend handler of the provider-list
operation is not under src/ (only its caller, api.listProviders, and the
response element type, Provider, are).  Section 6 of the spec: credentials
are never echoed back in list responses — the response carries each registry
record with its credential value omitted. -/
def listProvidersResponse (registry : List Provider) : List Provider :=
  registry.map (fun p => { p with api_key := "" })

/-- The value the SettingsPanel renders into the API-key field of a listed
provider (api.ts line 293). -/
def apiKeyFieldValue (p : Provider) : String :=
  p.api_key

/-- Outcome of the connectivity probe the backend runs against a provider
endpoint. -/
inductive ProbeOutcome where
  | ok (latencyMs : Nat)
  | failed (reason : String)
deriving DecidableEq

/-- Modelled from the spec: the backend testConnectivity handler is not under
src/ (only its callers are).  Section 4.1 of the spec: issue a minimal probe
with a bounded timeout; return success/failure plus latency; never throw on
network failure — failure is a normal result. -/
def testConnectivity : ProbeOutcome → ProviderTestResult
  | .ok ms => { success := true, message := "OK", response_time_ms := some ms }
  | .failed r => { success := false, message := r, response_time_ms := none }

/-- What the browser fetch of one request can come back with. -/
inductive FetchOutcome (α : Type) where
  | netError (msg : String)
  | httpError (status : Nat) (body : String)
  | ok (value : α)
deriving DecidableEq

/-- fetchJson (api.ts lines 5-15): a network failure rejects; a non-ok status
throws "API Error {status}: {body}" (built here by concatenation); otherwise
the decoded value is returned. -/
def fetchJson {α : Type} : FetchOutcome α → Except String α
  | .netError m => .error m
  | .httpError st b => .error ("API Error " ++ toString st ++ ": " ++ b)
  | .ok v => .ok v

/-- api.testProvider (api.ts lines 69-73): a fetchJson call, so transport
failures propagate as exceptions. -/
def testProvider (o : FetchOutcome ProviderTestResult) :
    Except String ProviderTestResult :=
  fetchJson o

/-- useProviders.testConnection (useProviders.ts lines 42-44): returns
api.testProvider's promise unchanged. -/
def testConnection (o : FetchOutcome ProviderTestResult) :
    Except String ProviderTestResult :=
  testProvider o

/-- The SettingsPanel test handler (api.ts line 225): await the connectivity
test and record its result; any thrown failure is caught and recorded as
success-false with message "Failed". -/
def settingsPanelTest (o : FetchOutcome ProviderTestResult) :
    ProviderTestResult :=
  match testConnection o with
  | .ok r => r
  | .error _ => { success := false, message := "Failed", response_time_ms := none }

/-! ## Helper lemmas -/

/-- The read loop's sink invocations are the per-line dispatch of the complete
lines, in order. -/
theorem processChunks_eq (parse : String → Option JsonVal) :
    ∀ (cs : List String) (buf : String),
      processChunks parse cs buf =
        (completeLines cs buf).filterMap (dispatchLine parse)
  | [], _ => rfl
  | c :: cs, buf => by
    simp [processChunks, completeLines, List.filterMap_append,
      processChunks_eq parse cs]

/-- Appending a token to a message list ending in an assistant message with
string content extends that content. -/
theorem appendTok_concat (ms : List ChatMessage) (acc tok : String) :
    appendTok (ms ++ [{ role := .assistant, content := .str acc }]) tok =
      ms ++ [{ role := .assistant, content := .str (acc ++ tok) }] := by
  simp [appendTok, List.getLast?_concat, contentStr]

/-- Folding streamChat events over an unaborted hook state whose message list
ends in an assistant message appends exactly the concatenated token texts to
that message, and leaves the abort ref clear. -/
theorem foldl_stepEvent_messages :
    ∀ (evs : List StreamEvent) (s : HookState) (ms : List ChatMessage)
      (acc : String), s.abort = false →
      s.messages = ms ++ [{ role := .assistant, content := .str acc }] →
      (evs.foldl stepEvent s).messages =
        ms ++ [{ role := .assistant,
                 content := .str (acc ++ textConcat (tokenTexts evs)) }] ∧
        (evs.foldl stepEvent s).abort = false := by
  intro evs
  induction evs with
  | nil =>
    intro s ms acc ha hm
    simp [tokenTexts, textConcat, hm, ha]
  | cons e evs ih =>
    intro s ms acc ha hm
    cases e with
    | token c =>
      have hstep : stepEvent s (.token c) =
          { s with messages := appendTok s.messages (jsString c) } := by
        simp [stepEvent, ha]
      have h2 := ih (stepEvent s (.token c)) ms (acc ++ jsString c)
        (by rw [hstep]; simpa using ha)
        (by rw [hstep]; simp [hm, appendTok_concat])
      simpa [tokenTexts, textConcat, List.foldl_cons, List.filterMap_cons,
        String.append_assoc] using h2
    | convId i =>
      exact ih _ ms acc ha hm
    | done cid =>
      exact ih _ ms acc ha hm
    | err m =>
      exact ih _ ms acc ha hm

/-- A wire trace of pure chunks runs exactly like the read loop folded over
the hook state. -/
theorem runWire_chunks (parse : String → Option JsonVal) :
    ∀ (cs : List String) (buf : String) (s : HookState),
      runWire parse (cs.map WireItem.chunk) buf s =
        (processChunks parse cs buf).foldl stepEvent s
  | [], _, _ => rfl
  | c :: cs, buf, s => by
    simp [runWire, processChunks, List.foldl_append, runWire_chunks parse cs]

/-- Splitting a wire trace splits the run, with the carry buffer threaded
through. -/
theorem runWire_append (parse : String → Option JsonVal) :
    ∀ (xs ys : List WireItem) (buf : String) (s : HookState),
      runWire parse (xs ++ ys) buf s =
        runWire parse ys (bufAfter xs buf) (runWire parse xs buf s)
  | [], _, _, _ => rfl
  | .cancel :: xs, ys, buf, s => by
    simp [runWire, bufAfter, runWire_append parse xs ys]
  | .chunk c :: xs, ys, buf, s => by
    simp [runWire, bufAfter, runWire_append parse xs ys]

/-- Once the abort ref is set, folding further streamChat events never touches
the message list and never clears the ref. -/
theorem foldl_stepEvent_aborted :
    ∀ (evs : List StreamEvent) (s : HookState), s.abort = true →
      (evs.foldl stepEvent s).messages = s.messages ∧
        (evs.foldl stepEvent s).abort = true := by
  intro evs
  induction evs with
  | nil => intro s ha; exact ⟨rfl, ha⟩
  | cons e evs ih =>
    intro s ha
    cases e with
    | token c =>
      have hstep : stepEvent s (.token c) = s := by simp [stepEvent, ha]
      simpa [List.foldl_cons, hstep] using ih s ha
    | convId i => exact ih _ ha
    | done cid => exact ih _ ha
    | err m => exact ih _ ha

/-- Once the abort ref is set, the rest of the wire trace never touches the
message list and never clears the ref. -/
theorem runWire_aborted (parse : String → Option JsonVal) :
    ∀ (items : List WireItem) (buf : String) (s : HookState), s.abort = true →
      (runWire parse items buf s).messages = s.messages ∧
        (runWire parse items buf s).abort = true
  | [], _, _, ha => ⟨rfl, ha⟩
  | .cancel :: rest, buf, s, ha => by
    have h := runWire_aborted parse rest buf { s with abort := true } rfl
    simpa [runWire] using h
  | .chunk c :: rest, buf, s, ha => by
    have hf := foldl_stepEvent_aborted
      (((splitNl (buf ++ c)).dropLast).filterMap (dispatchLine parse)) s ha
    have h := runWire_aborted parse rest (((splitNl (buf ++ c)).getLast?).getD "")
      _ hf.2
    rw [runWire]
    exact ⟨h.1.trans hf.1, h.2⟩

/-- Events that are all non-terminal at the front do not affect the
no-token-after-terminal check. -/
theorem noTokenAfterTerminal_append_front :
    ∀ (A rest : List StreamEvent), (∀ a ∈ A, isTerminal a = false) →
      noTokenAfterTerminal (A ++ rest) = noTokenAfterTerminal rest := by
  intro A
  induction A with
  | nil => intro rest _; rfl
  | cons a A ih =>
    intro rest h
    have ha := h a (List.mem_cons_self a A)
    have hA : ∀ x ∈ A, isTerminal x = false := fun x hx =>
      h x (List.mem_cons_of_mem a hx)
    simp [noTokenAfterTerminal, ha, ih rest hA]

/-- A sequence without terminal events passes the no-token-after-terminal
check. -/
theorem noTokenAfterTerminal_of_no_terminal :
    ∀ (B : List StreamEvent), (∀ b ∈ B, isTerminal b = false) →
      noTokenAfterTerminal B = true := by
  intro B
  induction B with
  | nil => intro _; rfl
  | cons b B ih =>
    intro h
    have hb := h b (List.mem_cons_self b B)
    have hB : ∀ x ∈ B, isTerminal x = false := fun x hx =>
      h x (List.mem_cons_of_mem b hx)
    simp [noTokenAfterTerminal, hb, ih hB]

/-- JS object assignment followed by lookup of the same key. -/
theorem lookupOpts_setAssoc_self :
    ∀ (m : ProviderOptionsMap) (n : String) (e : ProviderOptionEntry),
      lookupOpts (setAssoc m n e) n = some e := by
  intro m
  induction m with
  | nil => intro n e; simp [setAssoc, lookupOpts, List.find?]
  | cons kv m ih =>
    intro n e
    by_cases h : kv.1 = n
    · simp [setAssoc, h, lookupOpts, List.find?]
    · simpa [setAssoc, h, lookupOpts, List.find?] using ih n e

/-- Persisting the free_only flag does not change the auto_choose read. -/
theorem getOption_update_free_only (s : ChatSettingsState) (n : String)
    (b : Bool) :
    getOption (updateOption s n .free_only b) n .auto_choose =
      getOption s n .auto_choose := by
  cases hpo : s.provider_options with
  | none =>
    simp [getOption, updateOption, hpo, lookupOpts_setAssoc_self, lookupOpts,
      setAssoc, List.find?, entrySet, entryGet, emptyEntry]
  | some m =>
    cases hl : lookupOpts m n with
    | none =>
      simp [getOption, updateOption, hpo, hl, lookupOpts_setAssoc_self,
        entrySet, entryGet, emptyEntry]
    | some e =>
      simp [getOption, updateOption, hpo, hl, lookupOpts_setAssoc_self,
        entrySet, entryGet]

/-- With the free-only flag set, a blank search and a nonempty combined
catalog, the model area is the free-filtered catalog. -/
theorem modelArea_freeOnly (base dyn : List String) (sel : Bool)
    (sm dm : String) (h : dedupFirst (base ++ dyn) ≠ []) :
    modelArea base dyn true "" sel sm dm =
      ModelArea.list ((dedupFirst (base ++ dyn)).filter isFreeModel) := by
  simp [modelArea, List.isEmpty_iff, h]

/-! ## Claim theorems -/

/-- C1, counterexample: streamChat performs no defensive close.  On a
transport that emits a done event and then a further token event, the token
callback is still invoked after the terminal callback; and a started stream
that ends without any terminal event delivers no terminal callback at all. -/
theorem c1_counterexample :
    streamChatEvents parse0 ["data: DONE\ndata: TOK\n"] =
      [StreamEvent.done (some "c1"), StreamEvent.token (some "X")] ∧
    noTokenAfterTerminal (streamChatEvents parse0 ["data: DONE\ndata: TOK\n"]) =
      false ∧
    (streamChatEvents parse0 ["data: TOK\n"]).countP isTerminal = 0 := by
  decide

/-- C1, amended: streamChat forwards events exactly as the transport frames
them, so terminal discipline is inherited from upstream rather than enforced:
whenever the complete lines of the response contain exactly one line that
dispatches a terminal event, no terminal-dispatching line before it and no
token- or terminal-dispatching line after it, then exactly one terminal
callback is delivered and no token callback fires after it. -/
theorem c1_amended (parse : String → Option JsonVal) (chunks : List String)
    (l1 l2 : List String) (t : String) (e : StreamEvent)
    (hsplit : completeLines chunks "" = l1 ++ t :: l2)
    (ht : dispatchLine parse t = some e) (hterm : isTerminal e = true)
    (h1 : ∀ x ∈ l1, ∀ ev, dispatchLine parse x = some ev →
      isTerminal ev = false)
    (h2 : ∀ x ∈ l2, ∀ ev, dispatchLine parse x = some ev →
      isTerminal ev = false ∧ isTokenEv ev = false) :
    (streamChatEvents parse chunks).countP isTerminal = 1 ∧
      noTokenAfterTerminal (streamChatEvents parse chunks) = true := by
  have hev : streamChatEvents parse chunks =
      l1.filterMap (dispatchLine parse) ++
        e :: l2.filterMap (dispatchLine parse) := by
    rw [streamChatEvents, processChunks_eq, hsplit]
    simp [List.filterMap_append, List.filterMap_cons, ht]
  have hA : ∀ a ∈ l1.filterMap (dispatchLine parse), isTerminal a = false := by
    intro a ha
    obtain ⟨x, hx, hdx⟩ := List.mem_filterMap.1 ha
    exact h1 x hx a hdx
  have hB : ∀ b ∈ l2.filterMap (dispatchLine parse), isTerminal b = false ∧
      isTokenEv b = false := by
    intro b hb
    obtain ⟨x, hx, hdx⟩ := List.mem_filterMap.1 hb
    exact h2 x hx b hdx
  constructor
  · rw [hev, List.countP_append, List.countP_cons]
    have hA0 : (l1.filterMap (dispatchLine parse)).countP isTerminal = 0 :=
      List.countP_eq_zero.2 (fun a ha => by simp [hA a ha])
    have hB0 : (l2.filterMap (dispatchLine parse)).countP isTerminal = 0 :=
      List.countP_eq_zero.2 (fun b hb => by simp [(hB b hb).1])
    simp [hA0, hB0, hterm]
  · rw [hev, noTokenAfterTerminal_append_front _ _ hA]
    have hBterm : ∀ b ∈ l2.filterMap (dispatchLine parse),
        isTerminal b = false := fun b hb => (hB b hb).1
    have hBtok : (l2.filterMap (dispatchLine parse)).all
        (fun x => !isTokenEv x) = true :=
      List.all_eq_true.2 (fun b hb => by simp [(hB b hb).2])
    simp [noTokenAfterTerminal, hterm, hBtok,
      noTokenAfterTerminal_of_no_terminal _ hBterm]

/-- C1, amended, witness: a stream of one token line followed by one done
line delivers exactly one terminal callback with no token after it. -/
theorem c1_amended_witness :
    (streamChatEvents parse0 ["data: He\nda", "ta: DONE\n"]).countP
        isTerminal = 1 ∧
      noTokenAfterTerminal (streamChatEvents parse0 ["data: He\nda", "ta: DONE\n"]) =
        true :=
  c1_amended parse0 ["data: He\nda", "ta: DONE\n"] ["data: He"] [] "data: DONE"
    (StreamEvent.done (some "c1")) (by decide) (by decide) (by decide)
    (by decide) (by decide)

/-- C2: the onToken sink fires once per dispatched line event in exactly the
order the complete lines appear on the wire (no reordering, no drops), and
the assistant message accumulated by the chat hook is the concatenation of
the delivered token texts in arrival order; concretely, tokens "He" then
"llo" followed by done yield the assistant text "Hello". -/
theorem c2_order_and_accumulation :
    (∀ (parse : String → Option JsonVal) (chunks : List String),
      streamChatEvents parse chunks =
        (completeLines chunks "").filterMap (dispatchLine parse)) ∧
    (∀ (parse : String → Option JsonVal) (chunks : List String)
      (history : List ChatMessage) (uc : MessageContent) (cid : Option String),
      (runChat parse chunks (initialHookState history uc cid)).messages =
        history ++ [{ role := .user, content := uc },
          { role := .assistant,
            content := .str (textConcat (tokenTexts
              (streamChatEvents parse chunks))) }]) ∧
    (runChat parse0 ["data: He\n", "data: llo\n", "data: DONE\n"]
        (initialHookState [] (.str "hi") none)).messages =
      [{ role := .user, content := .str "hi" },
       { role := .assistant, content := .str "Hello" }] := by
  refine ⟨fun parse chunks => processChunks_eq parse chunks "", ?_, by decide⟩
  intro parse chunks history uc cid
  rw [runChat, runWire_chunks]
  have h := foldl_stepEvent_messages (processChunks parse chunks "")
    (initialHookState history uc cid)
    (history ++ [{ role := .user, content := uc }]) "" rfl
    (by simp [initialHookState])
  rw [streamChatEvents]
  simpa using h.1

/-- C3, counterexample: stopStreaming does not close the outbound call.  On a
trace where the user cancels after the first token, streamChat goes on
reading the transport and still invokes the onToken sink for a chunk that
arrives after the cancellation, instead of stopping at the next checkpoint. -/
theorem c3_counterexample :
    sinkCallsAfterCancel parse0
        [WireItem.chunk "data: He\n", WireItem.cancel,
         WireItem.chunk "data: llo\n"] "" =
      [StreamEvent.token (some "llo")] ∧
    sinkCallsAfterCancel parse0
        [WireItem.chunk "data: He\n", WireItem.cancel,
         WireItem.chunk "data: llo\n"] "" ≠ [] := by
  decide

/-- C3, amended: requesting cancellation sets the abort ref, and although the
read loop keeps consuming the transport, no further token is appended to the
visible assistant text: after the cancel, the hook's message list stays
frozen at the user message plus the partial assistant text accumulated from
the tokens delivered before the cancel, whatever the transport emits
afterwards. -/
theorem c3_amended (parse : String → Option JsonVal) (chunks : List String)
    (post : List WireItem) (history : List ChatMessage) (uc : MessageContent)
    (cid : Option String) :
    (runWire parse (chunks.map WireItem.chunk ++ WireItem.cancel :: post) ""
        (initialHookState history uc cid)).abort = true ∧
    (runWire parse (chunks.map WireItem.chunk ++ WireItem.cancel :: post) ""
        (initialHookState history uc cid)).messages =
      history ++ [{ role := .user, content := uc },
        { role := .assistant,
          content := .str (textConcat (tokenTexts
            (streamChatEvents parse chunks))) }] := by
  rw [runWire_append]
  set s1 := runWire parse (chunks.map WireItem.chunk) ""
    (initialHookState history uc cid) with hs1
  have hmsg : s1.messages =
      history ++ [{ role := .user, content := uc },
        { role := .assistant,
          content := .str (textConcat (tokenTexts
            (streamChatEvents parse chunks))) }] := by
    rw [hs1, runWire_chunks]
    have h := foldl_stepEvent_messages (processChunks parse chunks "")
      (initialHookState history uc cid)
      (history ++ [{ role := .user, content := uc }]) "" rfl
      (by simp [initialHookState])
    rw [streamChatEvents]
    simpa using h.1
  have hrun : runWire parse (WireItem.cancel :: post)
      (bufAfter (chunks.map WireItem.chunk) "") s1 =
      runWire parse post (bufAfter (chunks.map WireItem.chunk) "")
        { s1 with abort := true } := rfl
  rw [hrun]
  have h := runWire_aborted parse post
    (bufAfter (chunks.map WireItem.chunk) "") { s1 with abort := true } rfl
  exact ⟨h.2, h.1.trans hmsg⟩

/-- C4: stream-event dispatch is total and only recognized shapes invoke a
callback: a line not prefixed with "data: " dispatches nothing; a line whose
payload fails to parse dispatches nothing; a parsed value with none of the
recognized type tags and no truthy error field dispatches nothing; any
dispatched callback comes from one of the recognized token,
conversation_id, done or error shapes; and a non-dispatching line leaves the
surrounding lines' dispatches untouched, so the read loop is not
terminated. -/
theorem c4_total_dispatch (parse : String → Option JsonVal) (line : String)
    (j : JsonVal) (l1 l2 : List String) :
    (strStartsWith line "data: " = false → dispatchLine parse line = none) ∧
    (parse (strDrop line 6) = none → dispatchLine parse line = none) ∧
    (parse (strDrop line 6) = some j → j.type ≠ some "token" →
      j.type ≠ some "conversation_id" → j.type ≠ some "done" →
      j.type ≠ some "error" → (j.error = none ∨ j.error = some "") →
      dispatchLine parse line = none) ∧
    (∀ e, dispatchLine parse line = some e →
      strStartsWith line "data: " = true ∧
      ∃ jv, parse (strDrop line 6) = some jv ∧
        ((jv.type = some "token" ∧ e = .token jv.content) ∨
         (jv.type = some "conversation_id" ∧ e = .convId jv.id) ∨
         (jv.type = some "done" ∧ e = .done jv.conversation_id) ∨
         (jv.type = some "error" ∧ e = .err jv.message) ∨
         (∃ s, jv.error = some s ∧ s ≠ "" ∧ e = .err (some s)))) ∧
    (dispatchLine parse line = none →
      (l1 ++ line :: l2).filterMap (dispatchLine parse) =
        (l1 ++ l2).filterMap (dispatchLine parse)) := by
  refine ⟨?_, ?_, ?_, ?_, ?_⟩
  · intro h
    simp [dispatchLine, h]
  · intro h
    by_cases hs : strStartsWith line "data: " <;> simp [dispatchLine, hs, h]
  · intro hp h1 h2 h3 h4 herr
    by_cases hs : strStartsWith line "data: "
    · rcases herr with he | he <;>
        simp [dispatchLine, hs, hp, h1, h2, h3, h4, he]
    · simp [dispatchLine, hs]
  · intro e he
    by_cases hs : strStartsWith line "data: "
    · refine ⟨hs, ?_⟩
      cases hp : parse (strDrop line 6) with
      | none => simp [dispatchLine, hs, hp] at he
      | some jv =>
        refine ⟨jv, rfl, ?_⟩
        by_cases h1 : jv.type = some "token"
        · left
          simp [dispatchLine, hs, hp, h1] at he
          exact ⟨h1, he.symm⟩
        by_cases h2 : jv.type = some "conversation_id"
        · right; left
          simp [dispatchLine, hs, hp, h1, h2] at he
          exact ⟨h2, he.symm⟩
        by_cases h3 : jv.type = some "done"
        · right; right; left
          simp [dispatchLine, hs, hp, h1, h2, h3] at he
          exact ⟨h3, he.symm⟩
        by_cases h4 : jv.type = some "error"
        · right; right; right; left
          simp [dispatchLine, hs, hp, h1, h2, h3, h4] at he
          exact ⟨h4, he.symm⟩
        · right; right; right; right
          cases hjerr : jv.error with
          | none => simp [dispatchLine, hs, hp, h1, h2, h3, h4, hjerr] at he
          | some s =>
            by_cases hs0 : s = ""
            · simp [dispatchLine, hs, hp, h1, h2, h3, h4, hjerr, hs0] at he
            · simp [dispatchLine, hs, hp, h1, h2, h3, h4, hjerr, hs0] at he
              exact ⟨s, rfl, hs0, he.symm⟩
    · simp [dispatchLine, hs] at he
  · intro h
    simp [List.filterMap_append, List.filterMap_cons, h]

/-- C4, witness: a keep-alive line without the data prefix and a data line
with an unparseable payload both dispatch nothing. -/
theorem c4_total_dispatch_witness :
    dispatchLine parse0 "hello" = none ∧
      dispatchLine parse0 "data: junk" = none :=
  ⟨(c4_total_dispatch parse0 "hello"
      { type := none, content := none, id := none, conversation_id := none,
        message := none, error := none } [] []).1 (by decide),
   (c4_total_dispatch parse0 "data: junk"
      { type := none, content := none, id := none, conversation_id := none,
        message := none, error := none } [] []).2.1 (by decide)⟩

/-- C5, counterexample: with free_only set and a combined catalog whose
entries carry no free marker, the settings panel shows an empty candidate
list — it does not fall back to the provider's configured default model
(here "b"). -/
theorem c5_counterexample :
    modelArea ["b"] [] true "" false "m" "b" = ModelArea.list [] ∧
    candidatesOf (modelArea ["b"] [] true "" false "m" "b") ≠ ["b"] := by
  decide

/-- C5, amended: with free_only set, the candidate list shown is the combined
deduplicated catalog filtered to the entries marked free-tier (lowercase name
includes "free" or ends in ":free"), so catalog ["a:free", "b", "c:free"]
yields exactly ["a:free", "c:free"]; when the filter leaves nothing the shown
list is simply empty, and the default-model fallback (a free-text input
prefilled with the current or default model) applies only when the combined
catalog itself is empty. -/
theorem c5_amended (base dyn : List String) (sel : Bool) (sm dm : String) :
    (dedupFirst (base ++ dyn) ≠ [] →
      modelArea base dyn true "" sel sm dm =
        ModelArea.list ((dedupFirst (base ++ dyn)).filter isFreeModel)) ∧
    (dedupFirst (base ++ dyn) = [] →
      modelArea base dyn true "" sel sm dm =
        ModelArea.freeInput (if sel then sm else dm)) ∧
    modelArea ["a:free", "b", "c:free"] [] true "" sel sm dm =
      ModelArea.list ["a:free", "c:free"] := by
  refine ⟨modelArea_freeOnly base dyn sel sm dm, ?_, ?_⟩
  · intro h
    simp [modelArea, h]
  · rw [modelArea_freeOnly _ _ _ _ _ (by decide)]
    decide

/-- C5, amended, witness: a catalog with one free and one paid entry shows
only the free entry; an empty catalog falls back to the free-text input with
the current model. -/
theorem c5_amended_witness :
    modelArea ["a:free", "b"] [] true "" true "m" "d" =
      ModelArea.list ["a:free"] ∧
    modelArea [] [] true "" true "m" "d" = ModelArea.freeInput "m" :=
  ⟨((c5_amended ["a:free", "b"] [] true "m" "d").1 (by decide)).trans
      (by decide),
   ((c5_amended [] [] true "m" "d").2.1 (by decide)).trans (by decide)⟩

/-- C6: when a provider's auto_choose option is set, selecting it resolves
the model to the literal "openrouter/auto" rather than any catalog entry,
and this is unaffected by any value written to the free_only option; when
auto_choose is cleared while the provider is selected, the model reverts to
the provider's configured default. -/
theorem c6_auto_choose (s : ChatSettingsState) (p : Provider) (b : Bool) :
    (getOption s p.name .auto_choose = true → s.provider ≠ p.name →
      (selectionCardClick s p).model = "openrouter/auto" ∧
      (selectionCardClick s p).provider = p.name ∧
      (selectionCardClick (updateOption s p.name .free_only b) p).model =
        "openrouter/auto") ∧
    (s.provider = p.name →
      (autoChooseToggle s p false).model = p.default_model) := by
  constructor
  · intro hauto hne
    refine ⟨by simp [selectionCardClick, hne, hauto], ?_, ?_⟩
    · simp [selectionCardClick, hne]
    · have hprov : (updateOption s p.name .free_only b).provider =
          s.provider := by simp [updateOption]
      have hget := getOption_update_free_only s p.name b
      simp [selectionCardClick, hprov, hne, hget, hauto]
  · intro hsel
    simp [autoChooseToggle, hsel]

/-- C6, witness: with auto_choose stored for openrouter, clicking its card
resolves the model to "openrouter/auto" even with free_only also set; with
openrouter already selected, clearing auto_choose reverts the model to the
default "dm". -/
theorem c6_auto_choose_witness :
    (selectionCardClick
        { provider := "x", model := "m",
          provider_options := some [("openrouter",
            { free_only := none, auto_choose := some true })] }
        { name := "openrouter", display_name := "OpenRouter", base_url := "u",
          api_key := "k", default_model := "dm", access_method := "a",
          icon := "i", is_custom := false, models := none }).model =
      "openrouter/auto" ∧
    (autoChooseToggle
        { provider := "openrouter", model := "openrouter/auto",
          provider_options := some [("openrouter",
            { free_only := none, auto_choose := some true })] }
        { name := "openrouter", display_name := "OpenRouter", base_url := "u",
          api_key := "k", default_model := "dm", access_method := "a",
          icon := "i", is_custom := false, models := none } false).model =
      "dm" :=
  ⟨((c6_auto_choose
      { provider := "x", model := "m",
        provider_options := some [("openrouter",
          { free_only := none, auto_choose := some true })] }
      { name := "openrouter", display_name := "OpenRouter", base_url := "u",
        api_key := "k", default_model := "dm", access_method := "a",
        icon := "i", is_custom := false, models := none } true).1
      (by decide) (by decide)).1,
   (c6_auto_choose
      { provider := "openrouter", model := "openrouter/auto",
        provider_options := some [("openrouter",
          { free_only := none, auto_choose := some true })] }
      { name := "openrouter", display_name := "OpenRouter", base_url := "u",
        api_key := "k", default_model := "dm", access_method := "a",
        icon := "i", is_custom := false, models := none } true).2
      (by decide)⟩

/-- C7: every provider record carried by the provider-list response has an
empty credential value, and the settings panel therefore renders no
credential back from listed records. -/
theorem c7_no_credentials (registry : List Provider) (p : Provider)
    (h : p ∈ listProvidersResponse registry) :
    p.api_key = "" ∧ apiKeyFieldValue p = "" := by
  obtain ⟨q, hq, rfl⟩ := List.mem_map.1 h
  exact ⟨rfl, rfl⟩

/-- C7, witness: listing a registry holding one provider configured with the
credential "sk-test" yields a record whose credential value and rendered
API-key field are both empty. -/
theorem c7_no_credentials_witness :
    ({ name := "openrouter", display_name := "OpenRouter", base_url := "u",
       api_key := "", default_model := "dm", access_method := "a",
       icon := "i", is_custom := false, models := none } : Provider).api_key =
      "" ∧
    apiKeyFieldValue
      { name := "openrouter", display_name := "OpenRouter", base_url := "u",
        api_key := "", default_model := "dm", access_method := "a",
        icon := "i", is_custom := false, models := none } = "" :=
  c7_no_credentials
    [{ name := "openrouter", display_name := "OpenRouter", base_url := "u",
       api_key := "sk-test", default_model := "dm", access_method := "a",
       icon := "i", is_custom := false, models := none }]
    { name := "openrouter", display_name := "OpenRouter", base_url := "u",
      api_key := "", default_model := "dm", access_method := "a",
      icon := "i", is_custom := false, models := none } (by decide)

/-- C8: connectivity testing never surfaces an exception to the caller: the
backend probe returns a normal success/failure result with a message and,
when available, the measured latency; and even when the transport to the
backend itself fails (network rejection or non-ok status), the settings
panel's handler records the normal failure result {success := false,
message := "Failed"} instead of crashing. -/
theorem c8_test_never_throws (ms : Nat) (r m b : String) (st : Nat) :
    settingsPanelTest (.ok (testConnectivity (.ok ms))) =
      { success := true, message := "OK", response_time_ms := some ms } ∧
    settingsPanelTest (.ok (testConnectivity (.failed r))) =
      { success := false, message := r, response_time_ms := none } ∧
    settingsPanelTest (.netError m) =
      { success := false, message := "Failed", response_time_ms := none } ∧
    settingsPanelTest (.httpError st b) =
      { success := false, message := "Failed", response_time_ms := none } ∧
    (testConnectivity (.failed r)).success = false :=
  ⟨rfl, rfl, rfl, rfl, rfl⟩

/-- C9: with a non-empty attachment list, the message content is a part list
opening with a text part for non-blank typed input, followed by one part per
attachment in order: an image file becomes an image_url part holding its data
URL, a text-like file becomes a text part holding its name and contents, and
any other file contributes no part and raises no error. -/
theorem c9_attachments (content : String) (files : List FileAtt) (f : FileAtt)
    (h : files ≠ []) :
    sendMessageContent content files = MessageContent.parts
      ((if strTrim content ≠ "" then [ContentPart.text content] else []) ++
        files.flatMap attachmentPart) ∧
    (strStartsWith f.mime "image/" = true →
      attachmentPart f = [ContentPart.image_url f.dataUrl]) ∧
    (strStartsWith f.mime "image/" = false → isTextLike f = true →
      attachmentPart f =
        [ContentPart.text ("File: " ++ f.name ++ "\n\n" ++ f.text)]) ∧
    (strStartsWith f.mime "image/" = false → isTextLike f = false →
      attachmentPart f = []) := by
  refine ⟨?_, ?_, ?_, ?_⟩
  · cases files with
    | nil => exact absurd rfl h
    | cons a l => simp [sendMessageContent]
  · intro hi
    simp [attachmentPart, hi]
  · intro hi htl
    simp [attachmentPart, hi, htl]
  · intro hi htl
    simp [attachmentPart, hi, htl]

/-- C9, witness: typed text "hi" with one PNG image, one markdown file and
one unsupported binary yields the text part, the image part and the file
part, with the binary silently dropped. -/
theorem c9_attachments_witness :
    sendMessageContent "hi"
      [{ name := "p.png", mime := "image/png", dataUrl := "du", text := "" },
       { name := "n.md", mime := "application/unknown", dataUrl := "",
         text := "body" },
       { name := "x.bin", mime := "application/zip", dataUrl := "",
         text := "zz" }] =
      MessageContent.parts
        [ContentPart.text "hi", ContentPart.image_url "du",
         ContentPart.text ("File: " ++ "n.md" ++ "\n\n" ++ "body")] ∧
    attachmentPart
      { name := "x.bin", mime := "application/zip", dataUrl := "",
        text := "zz" } = [] :=
  ⟨((c9_attachments "hi"
      [{ name := "p.png", mime := "image/png", dataUrl := "du", text := "" },
       { name := "n.md", mime := "application/unknown", dataUrl := "",
         text := "body" },
       { name := "x.bin", mime := "application/zip", dataUrl := "",
         text := "zz" }]
      { name := "x.bin", mime := "application/zip", dataUrl := "",
        text := "zz" } (by decide)).1).trans (by decide),
   (c9_attachments "hi"
      [{ name := "p.png", mime := "image/png", dataUrl := "du", text := "" },
       { name := "n.md", mime := "application/unknown", dataUrl := "",
         text := "body" },
       { name := "x.bin", mime := "application/zip", dataUrl := "",
         text := "zz" }]
      { name := "x.bin", mime := "application/zip", dataUrl := "",
        text := "zz" } (by decide)).2.2.2 (by decide) (by decide)⟩

/-- C10: renaming the active conversation replaces only its title — the id,
system prompt, timestamps, preview, message count and messages are carried
over unchanged; renaming a different id leaves the active conversation state
entirely unchanged, and no active conversation stays none. -/
theorem c10_rename_frame (c : ConversationDetail) (id title : String) :
    (c.id = id → renameActiveConversation (some c) id title = some
      { id := c.id, title := title, system_prompt := c.system_prompt,
        created_at := c.created_at, updated_at := c.updated_at,
        preview := c.preview, message_count := c.message_count,
        messages := c.messages }) ∧
    (c.id ≠ id → renameActiveConversation (some c) id title = some c) ∧
    renameActiveConversation none id title = none := by
  refine ⟨?_, ?_, rfl⟩
  · intro h
    simp [renameActiveConversation, h]
  · intro h
    simp [renameActiveConversation, h]

/-- C10, witness: renaming conversation "c1" to "New" changes only its title,
and renaming "other" leaves it untouched. -/
theorem c10_rename_frame_witness :
    renameActiveConversation
      (some { id := "c1", title := "Old", system_prompt := some "sp",
              created_at := "t0", updated_at := "t1", preview := some "pv",
              message_count := 2, messages := [] }) "c1" "New" =
      some { id := "c1", title := "New", system_prompt := some "sp",
             created_at := "t0", updated_at := "t1", preview := some "pv",
             message_count := 2, messages := [] } ∧
    renameActiveConversation
      (some { id := "c1", title := "Old", system_prompt := some "sp",
              created_at := "t0", updated_at := "t1", preview := some "pv",
              message_count := 2, messages := [] }) "other" "New" =
      some { id := "c1", title := "Old", system_prompt := some "sp",
             created_at := "t0", updated_at := "t1", preview := some "pv",
             message_count := 2, messages := [] } :=
  ⟨(c10_rename_frame
      { id := "c1", title := "Old", system_prompt := some "sp",
        created_at := "t0", updated_at := "t1", preview := some "pv",
        message_count := 2, messages := [] } "c1" "New").1 (by decide),
   (c10_rename_frame
      { id := "c1", title := "Old", system_prompt := some "sp",
        created_at := "t0", updated_at := "t1", preview := some "pv",
        message_count := 2, messages := [] } "other" "New").2.1 (by decide)⟩

end DagBot
